import Mathlib

/-!
Verification of the ZWO-to-FIT workout converter (`src/main.py`).

The converter logic is embedded shallowly: rational numbers stand for the
Python floats, integers for Python ints, and each method of
`zwoToFitConverter` becomes a Lean function over an explicit converter
record.  XML elements are modelled as a tag together with an attribute
list; `Element.get` mirrors `xml.etree` attribute lookup with a default.
-/

/-- Python `round`: round half to even (banker's rounding), as `round`
behaves on the values produced by this program. -/
def pyRound (q : ℚ) : ℤ :=
  if q - ⌊q⌋ < 1/2 then ⌊q⌋
  else if 1/2 < q - ⌊q⌋ then ⌊q⌋ + 1
  else if ⌊q⌋ % 2 = 0 then ⌊q⌋ else ⌊q⌋ + 1

/-- Python `int(...)` applied to a numeric value: truncation toward zero. -/
def pyInt (q : ℚ) : ℤ :=
  if q < 0 then -⌊-q⌋ else ⌊q⌋

/-- An XML element inside the `workout` tree: a tag plus attributes.
Attribute values are modelled as rationals (the program reads them with
`int(...)` / `float(...)`). -/
structure Element where
  tag : String
  attrs : List (String × ℚ)
deriving DecidableEq

/-- Attribute lookup, first match wins (XML attributes are unique). -/
def lookupAttr : List (String × ℚ) → String → Option ℚ
  | [], _ => none
  | (k, v) :: rest, key => if k = key then some v else lookupAttr rest key

/-- `element.get(key, default)` from `xml.etree.ElementTree`. -/
def Element.get (e : Element) (key : String) (default : ℚ) : ℚ :=
  (lookupAttr e.attrs key).getD default

/-- `fit_tool` intensity enum values used by the converter. -/
inductive Intensity
  | WARMUP
  | COOLDOWN
  | ACTIVE
  | REST
deriving DecidableEq

/-- `fit_tool` workout step duration enum values used by the converter. -/
inductive WorkoutStepDuration
  | TIME
  | OPEN
deriving DecidableEq

/-- `fit_tool` workout step target enum values used by the converter. -/
inductive WorkoutStepTarget
  | POWER
  | HEART_RATE
deriving DecidableEq

/-- A step dictionary as produced by the `_parse_*` methods.  The two
`custom_target_value_*` keys are only present for power-target steps, hence
`Option`. -/
structure Step where
  wkt_step_name : String
  intensity : Intensity
  duration_type : WorkoutStepDuration
  duration_value : ℤ
  target_type : WorkoutStepTarget
  target_value : ℤ
  custom_target_value_low : Option ℤ
  custom_target_value_high : Option ℤ
deriving DecidableEq

/-- The converter state set up by `zwoToFitConverter.__init__`. -/
structure zwoToFitConverter where
  ftp_watts : ℚ
  use_power_for_cycling : Bool
  power_buffer_percent : ℚ
  use_absolute_power : Bool
  warmup_manual_advance : Bool
  cooldown_manual_advance : Bool
  force_warmup_power : Option ℚ
deriving DecidableEq

/-- `zwoToFitConverter.__init__` (src/main.py lines 13-33): stores the
arguments, dividing `power_buffer_percent` by 100; it performs no
validation and cannot fail. -/
def zwoToFitConverter.init (ftp_watts : ℚ) (use_power_for_cycling : Bool)
    (power_buffer_percent : ℚ) (use_absolute_power : Bool)
    (warmup_manual_advance : Bool) (cooldown_manual_advance : Bool)
    (force_warmup_power : Option ℚ) : zwoToFitConverter :=
  { ftp_watts := ftp_watts
    use_power_for_cycling := use_power_for_cycling
    power_buffer_percent := power_buffer_percent / 100
    use_absolute_power := use_absolute_power
    warmup_manual_advance := warmup_manual_advance
    cooldown_manual_advance := cooldown_manual_advance
    force_warmup_power := force_warmup_power }

/-- `_convert_power_for_fit` (lines 44-60). -/
def _convert_power_for_fit (c : zwoToFitConverter) (watts : ℤ) : ℤ :=
  if c.use_absolute_power then
    watts + 1000
  else
    let ftp_percentage : ℚ := ((watts : ℚ) / c.ftp_watts) * 100
    pyRound (ftp_percentage * 10)

/-- `_should_use_power` (lines 109-111). -/
def _should_use_power (c : zwoToFitConverter) (sport : String) : Bool :=
  c.use_power_for_cycling && (sport = "bike" || sport = "cycling")

/-- `_apply_power_buffer_watts` (lines 113-123). -/
def _apply_power_buffer_watts (c : zwoToFitConverter) (power_percentage : ℚ) :
    ℤ × ℤ :=
  let target_watts := power_percentage * c.ftp_watts
  let low_watts := target_watts * (1 - c.power_buffer_percent)
  let high_watts := target_watts * (1 + c.power_buffer_percent)
  (pyRound low_watts, pyRound high_watts)

/-- `_power_to_heart_rate_zone` (lines 356-374).  The method receives
`self` but never uses it (apart from debug printing). -/
def _power_to_heart_rate_zone (_self : zwoToFitConverter)
    (power_percentage : ℚ) : ℤ :=
  let power_pct := power_percentage * 100
  if power_pct ≤ 55 then 1
  else if power_pct ≤ 70 then 2
  else if power_pct ≤ 85 then 3
  else if power_pct ≤ 95 then 4
  else 5

/-- The warmup `power_low` after the `force_warmup_power` override
(lines 128, 132-133). -/
def warmupEffPowerLow (c : zwoToFitConverter) (e : Element) : ℚ :=
  match c.force_warmup_power with
  | some f => f
  | none => e.get "PowerLow" (6/10)

/-- The warmup `power_high` after the `force_warmup_power` override
(lines 129, 132-134). -/
def warmupEffPowerHigh (c : zwoToFitConverter) (e : Element) : ℚ :=
  match c.force_warmup_power with
  | some f => f
  | none => e.get "PowerHigh" (7/10)

/-- `_parse_warmup` (lines 125-188). -/
def _parse_warmup (c : zwoToFitConverter) (e : Element) (sport : String) :
    Step :=
  let duration : ℤ := pyInt (e.get "Duration" 600)
  let power_low : ℚ := warmupEffPowerLow c e
  let power_high : ℚ := warmupEffPowerHigh c e
  let duration_type :=
    if c.warmup_manual_advance then WorkoutStepDuration.OPEN
    else WorkoutStepDuration.TIME
  let duration_value : ℤ :=
    if c.warmup_manual_advance then 0 else duration * 1000
  let step_name :=
    if c.warmup_manual_advance then "Warm up (Press LAP when ready)"
    else "Warm up"
  if _should_use_power c sport then
    let watts : ℤ × ℤ :=
      if power_low = power_high then _apply_power_buffer_watts c power_low
      else ((_apply_power_buffer_watts c power_low).1,
            (_apply_power_buffer_watts c power_high).2)
    { wkt_step_name := step_name
      intensity := Intensity.WARMUP
      duration_type := duration_type
      duration_value := duration_value
      target_type := WorkoutStepTarget.POWER
      target_value := 0
      custom_target_value_low := some (_convert_power_for_fit c watts.1)
      custom_target_value_high := some (_convert_power_for_fit c watts.2) }
  else
    let hr_zone : ℤ :=
      match c.force_warmup_power with
      | some f => _power_to_heart_rate_zone c f
      | none => _power_to_heart_rate_zone c ((power_low + power_high) / 2)
    { wkt_step_name := step_name
      intensity := Intensity.WARMUP
      duration_type := duration_type
      duration_value := duration_value
      target_type := WorkoutStepTarget.HEART_RATE
      target_value := hr_zone
      custom_target_value_low := none
      custom_target_value_high := none }

/-- `_parse_cooldown` (lines 190-242). -/
def _parse_cooldown (c : zwoToFitConverter) (e : Element) (sport : String) :
    Step :=
  let duration : ℤ := pyInt (e.get "Duration" 600)
  let power_low : ℚ := e.get "PowerLow" (6/10)
  let power_high : ℚ := e.get "PowerHigh" (65/100)
  let duration_type :=
    if c.cooldown_manual_advance then WorkoutStepDuration.OPEN
    else WorkoutStepDuration.TIME
  let duration_value : ℤ :=
    if c.cooldown_manual_advance then 0 else duration * 1000
  let step_name :=
    if c.cooldown_manual_advance then "Cool down (Press LAP when ready)"
    else "Cool down"
  if _should_use_power c sport then
    let watts : ℤ × ℤ :=
      if power_low = power_high then _apply_power_buffer_watts c power_low
      else ((_apply_power_buffer_watts c power_low).1,
            (_apply_power_buffer_watts c power_high).2)
    { wkt_step_name := step_name
      intensity := Intensity.COOLDOWN
      duration_type := duration_type
      duration_value := duration_value
      target_type := WorkoutStepTarget.POWER
      target_value := 0
      custom_target_value_low := some (_convert_power_for_fit c watts.1)
      custom_target_value_high := some (_convert_power_for_fit c watts.2) }
  else
    let hr_zone : ℤ := _power_to_heart_rate_zone c ((power_low + power_high) / 2)
    { wkt_step_name := step_name
      intensity := Intensity.COOLDOWN
      duration_type := duration_type
      duration_value := duration_value
      target_type := WorkoutStepTarget.HEART_RATE
      target_value := hr_zone
      custom_target_value_low := none
      custom_target_value_high := none }

/-- Work step of interval iteration `i` (lines 255-284). -/
def intervalWorkStep (c : zwoToFitConverter) (sport : String) (i : ℕ)
    (on_duration : ℤ) (on_power : ℚ) : Step :=
  if _should_use_power c sport then
    let watts := _apply_power_buffer_watts c on_power
    { wkt_step_name := "Interval " ++ toString (i + 1) ++ " - Work"
      intensity := Intensity.ACTIVE
      duration_type := WorkoutStepDuration.TIME
      duration_value := on_duration * 1000
      target_type := WorkoutStepTarget.POWER
      target_value := 0
      custom_target_value_low := some (_convert_power_for_fit c watts.1)
      custom_target_value_high := some (_convert_power_for_fit c watts.2) }
  else
    { wkt_step_name := "Interval " ++ toString (i + 1) ++ " - Work"
      intensity := Intensity.ACTIVE
      duration_type := WorkoutStepDuration.TIME
      duration_value := on_duration * 1000
      target_type := WorkoutStepTarget.HEART_RATE
      target_value := _power_to_heart_rate_zone c on_power
      custom_target_value_low := none
      custom_target_value_high := none }

/-- Recovery step of interval iteration `i` (lines 286-316). -/
def intervalRecoveryStep (c : zwoToFitConverter) (sport : String) (i : ℕ)
    (off_duration : ℤ) (off_power : ℚ) : Step :=
  if _should_use_power c sport then
    let watts := _apply_power_buffer_watts c off_power
    { wkt_step_name := "Interval " ++ toString (i + 1) ++ " - Recovery"
      intensity := Intensity.REST
      duration_type := WorkoutStepDuration.TIME
      duration_value := off_duration * 1000
      target_type := WorkoutStepTarget.POWER
      target_value := 0
      custom_target_value_low := some (_convert_power_for_fit c watts.1)
      custom_target_value_high := some (_convert_power_for_fit c watts.2) }
  else
    { wkt_step_name := "Interval " ++ toString (i + 1) ++ " - Recovery"
      intensity := Intensity.REST
      duration_type := WorkoutStepDuration.TIME
      duration_value := off_duration * 1000
      target_type := WorkoutStepTarget.HEART_RATE
      target_value := _power_to_heart_rate_zone c off_power
      custom_target_value_low := none
      custom_target_value_high := none }

/-- The `for i in range(repeat)` loop of `_parse_intervals`
(lines 252-318): a work step per iteration, plus a recovery step on every
iteration but the last. -/
def intervalsLoop (c : zwoToFitConverter) (sport : String) (repeatCount : ℤ)
    (on_duration off_duration : ℤ) (on_power off_power : ℚ) : List Step :=
  (List.range repeatCount.toNat).flatMap fun i =>
    intervalWorkStep c sport i on_duration on_power ::
      (if (i : ℤ) < repeatCount - 1 then
        [intervalRecoveryStep c sport i off_duration off_power]
      else [])

/-- `_parse_intervals` (lines 244-318): attribute extraction followed by
the expansion loop. -/
def _parse_intervals (c : zwoToFitConverter) (e : Element) (sport : String) :
    List Step :=
  intervalsLoop c sport (pyInt (e.get "Repeat" 1))
    (pyInt (e.get "OnDuration" 300)) (pyInt (e.get "OffDuration" 120))
    (e.get "OnPower" (85/100)) (e.get "OffPower" (65/100))

/-- `_parse_steady_state` (lines 320-354). -/
def _parse_steady_state (c : zwoToFitConverter) (e : Element)
    (sport : String) : Step :=
  let duration : ℤ := pyInt (e.get "Duration" 1200)
  let power : ℚ := e.get "Power" (3/4)
  if _should_use_power c sport then
    let watts := _apply_power_buffer_watts c power
    { wkt_step_name := "Steady state"
      intensity := Intensity.ACTIVE
      duration_type := WorkoutStepDuration.TIME
      duration_value := duration * 1000
      target_type := WorkoutStepTarget.POWER
      target_value := 0
      custom_target_value_low := some (_convert_power_for_fit c watts.1)
      custom_target_value_high := some (_convert_power_for_fit c watts.2) }
  else
    { wkt_step_name := "Steady state"
      intensity := Intensity.ACTIVE
      duration_type := WorkoutStepDuration.TIME
      duration_value := duration * 1000
      target_type := WorkoutStepTarget.HEART_RATE
      target_value := _power_to_heart_rate_zone c (e.get "Power" (3/4))
      custom_target_value_low := none
      custom_target_value_high := none }

/-- `_parse_workout_steps` (lines 86-107): dispatch on the child tag;
anything unrecognized contributes nothing. -/
def _parse_workout_steps (c : zwoToFitConverter)
    (workout_element : List Element) (sport : String) : List Step :=
  workout_element.flatMap fun element =>
    if element.tag = "Warmup" then [_parse_warmup c element sport]
    else if element.tag = "Cooldown" then [_parse_cooldown c element sport]
    else if element.tag = "IntervalsT" then _parse_intervals c element sport
    else if element.tag = "SteadyState" then [_parse_steady_state c element sport]
    else []

/-- The root of a parsed `.zwo` document: the optional `name`,
`description` and `sportType` elements and the optional `workout`
container with its children. -/
structure ZwoRoot where
  name : Option String
  description : Option String
  sportType : Option String
  workout : Option (List Element)

/-- The dictionary returned by `parse_zwo_file`. -/
structure WorkoutData where
  name : String
  description : String
  sport : String
  steps : List Step

/-- `parse_zwo_file` (lines 62-84), modelled from the element tree
onward (the XML reader itself is an external collaborator). -/
def parse_zwo_file (c : zwoToFitConverter) (root : ZwoRoot) : WorkoutData :=
  let name := root.name.getD "Unnamed Workout"
  let description := root.description.getD ""
  let sport_type := root.sportType.getD "other"
  let steps :=
    match root.workout with
    | some workout_element =>
        _parse_workout_steps c workout_element sport_type.toLower
    | none => []
  { name := name
    description := description
    sport := sport_type.toLower
    steps := steps }

/-- Modelled from the spec: the threshold-banded heart-rate-zone strategy
(strategy (b) of §4.2); the nearest-table strategy (a) belongs to a
historical variant that is not part of this source tree. -/
def thresholdBandedZone (fraction : ℚ) : ℤ :=
  if fraction ≤ 55/100 then 1
  else if fraction ≤ 70/100 then 2
  else if fraction ≤ 85/100 then 3
  else if fraction ≤ 95/100 then 4
  else 5

/-! ### Helper lemmas about rounding -/

lemma floor_le_pyRound (q : ℚ) : ⌊q⌋ ≤ pyRound q := by
  unfold pyRound
  split_ifs <;> omega

lemma pyRound_le_floor_add_one (q : ℚ) : pyRound q ≤ ⌊q⌋ + 1 := by
  unfold pyRound
  split_ifs <;> omega

lemma pyRound_dist (q : ℚ) : |(pyRound q : ℚ) - q| ≤ 1/2 := by
  have h0 : (⌊q⌋ : ℚ) ≤ q := Int.floor_le q
  have h1 : q < ⌊q⌋ + 1 := Int.lt_floor_add_one q
  rw [abs_le]
  unfold pyRound
  split_ifs with hlt hgt heven <;> constructor <;> push_cast <;> linarith

lemma pyRound_mono {x y : ℚ} (h : x ≤ y) : pyRound x ≤ pyRound y := by
  rcases eq_or_lt_of_le (Int.floor_le_floor h) with heq | hlt
  · have hx0 : (⌊x⌋ : ℚ) ≤ x := Int.floor_le x
    have hy1 : y < ⌊y⌋ + 1 := Int.lt_floor_add_one y
    unfold pyRound
    rw [← heq]
    split_ifs <;> push_cast at * <;> first | omega | linarith
  · calc pyRound x ≤ ⌊x⌋ + 1 := pyRound_le_floor_add_one x
      _ ≤ ⌊y⌋ := by omega
      _ ≤ pyRound y := floor_le_pyRound y

lemma pyInt_natCast (n : ℕ) : pyInt (n : ℚ) = n := by
  unfold pyInt
  rw [if_neg (not_lt.mpr (by positivity))]
  exact_mod_cast Int.floor_natCast n

lemma pyInt_intCast (z : ℤ) : pyInt (z : ℚ) = z := by
  unfold pyInt
  split_ifs with h
  · rw [show (-(z : ℚ)) = ((-z : ℤ) : ℚ) by push_cast; ring, Int.floor_intCast]
    omega
  · exact Int.floor_intCast z

/-! ### Helper lemmas about the interval expansion -/

lemma intervalWorkStep_intensity (c : zwoToFitConverter) (sport : String)
    (i : ℕ) (onD : ℤ) (onP : ℚ) :
    (intervalWorkStep c sport i onD onP).intensity = Intensity.ACTIVE := by
  unfold intervalWorkStep
  split <;> rfl

lemma intervalWorkStep_duration_type (c : zwoToFitConverter) (sport : String)
    (i : ℕ) (onD : ℤ) (onP : ℚ) :
    (intervalWorkStep c sport i onD onP).duration_type =
      WorkoutStepDuration.TIME := by
  unfold intervalWorkStep
  split <;> rfl

lemma intervalWorkStep_duration_value (c : zwoToFitConverter) (sport : String)
    (i : ℕ) (onD : ℤ) (onP : ℚ) :
    (intervalWorkStep c sport i onD onP).duration_value = onD * 1000 := by
  unfold intervalWorkStep
  split <;> rfl

lemma intervalRecoveryStep_intensity (c : zwoToFitConverter) (sport : String)
    (i : ℕ) (offD : ℤ) (offP : ℚ) :
    (intervalRecoveryStep c sport i offD offP).intensity = Intensity.REST := by
  unfold intervalRecoveryStep
  split <;> rfl

lemma intervalRecoveryStep_duration_type (c : zwoToFitConverter)
    (sport : String) (i : ℕ) (offD : ℤ) (offP : ℚ) :
    (intervalRecoveryStep c sport i offD offP).duration_type =
      WorkoutStepDuration.TIME := by
  unfold intervalRecoveryStep
  split <;> rfl

lemma intervalRecoveryStep_duration_value (c : zwoToFitConverter)
    (sport : String) (i : ℕ) (offD : ℤ) (offP : ℚ) :
    (intervalRecoveryStep c sport i offD offP).duration_value =
      offD * 1000 := by
  unfold intervalRecoveryStep
  split <;> rfl

lemma range_flatMap_pair {α : Type} (w r : ℕ → α) (m : ℕ) :
    (List.range m).flatMap (fun i => [w i, r i]) =
      (List.range (2 * m)).map
        (fun j => if j % 2 = 0 then w (j / 2) else r (j / 2)) := by
  induction m with
  | zero => rfl
  | succ k ih =>
    have h1 : (2 * k) % 2 = 0 := by omega
    have h2 : (2 * k) / 2 = k := by omega
    have h3 : (2 * k + 1) % 2 = 1 := by omega
    have h4 : (2 * k + 1) / 2 = k := by omega
    have h5 : 2 * (k + 1) = (2 * k + 1) + 1 := by ring
    rw [List.range_succ, List.flatMap_append, ih, h5, List.range_succ,
      List.range_succ, List.map_append, List.map_append]
    simp [h1, h2, h3, h4]

lemma intervalsLoop_closed (c : zwoToFitConverter) (sport : String)
    (onD offD : ℤ) (onP offP : ℚ) (N : ℕ) (hN : 1 ≤ N) :
    intervalsLoop c sport (N : ℤ) onD offD onP offP =
      (List.range (N - 1)).flatMap
        (fun i => [intervalWorkStep c sport i onD onP,
                   intervalRecoveryStep c sport i offD offP]) ++
      [intervalWorkStep c sport (N - 1) onD onP] := by
  obtain ⟨M, rfl⟩ : ∃ M, N = M + 1 := ⟨N - 1, by omega⟩
  unfold intervalsLoop
  rw [Int.toNat_natCast, List.range_succ, List.flatMap_append]
  congr 1
  · apply List.flatMap_congr
    intro i hi
    rw [List.mem_range] at hi
    rw [if_pos (by push_cast; omega)]
  · simp only [List.flatMap_cons, List.flatMap_nil]
    rw [if_neg (by push_cast; omega)]
    simp

lemma intervalsLoop_alternating (c : zwoToFitConverter) (sport : String)
    (onD offD : ℤ) (onP offP : ℚ) (N : ℕ) (hN : 1 ≤ N) :
    intervalsLoop c sport (N : ℤ) onD offD onP offP =
      (List.range (2 * N - 1)).map
        (fun j => if j % 2 = 0 then intervalWorkStep c sport (j / 2) onD onP
                  else intervalRecoveryStep c sport (j / 2) offD offP) := by
  rw [intervalsLoop_closed c sport onD offD onP offP N hN, range_flatMap_pair]
  have h1 : (2 * (N - 1)) % 2 = 0 := by omega
  have h2 : (2 * (N - 1)) / 2 = N - 1 := by omega
  have h5 : 2 * N - 1 = 2 * (N - 1) + 1 := by omega
  rw [h5, List.range_succ, List.map_append]
  simp [h1, h2]

lemma countP_even_range (m : ℕ) :
    (List.range m).countP (fun j => decide (j % 2 = 0)) = (m + 1) / 2 := by
  induction m with
  | zero => rfl
  | succ k ih =>
    rw [List.range_succ, List.countP_append, ih]
    rcases Nat.mod_two_eq_zero_or_one k with h | h <;>
      simp [List.countP_cons, h] <;> omega

lemma countP_odd_range (m : ℕ) :
    (List.range m).countP (fun j => decide (j % 2 = 1)) = m / 2 := by
  induction m with
  | zero => rfl
  | succ k ih =>
    rw [List.range_succ, List.countP_append, ih]
    rcases Nat.mod_two_eq_zero_or_one k with h | h <;>
      simp [List.countP_cons, h] <;> omega

/-! ### Concrete configurations used by witnesses -/

/-- The configuration built in `main()` except that no warmup override is
set: FTP 240 W, power targets for cycling, 5 % buffer, absolute watts. -/
def cfgPowerAbs : zwoToFitConverter :=
  zwoToFitConverter.init 240 true 5 true true false none

/-- A configuration with power targets disabled, so heart-rate zones are
used for every sport. -/
def cfgHr : zwoToFitConverter :=
  zwoToFitConverter.init 240 false 5 true true false none

/-- A configuration using FTP-percentage power encoding. -/
def cfgPct : zwoToFitConverter :=
  zwoToFitConverter.init 240 true 5 false true false none

/-! ### C1: interval expansion -/

/-- C1: for a Repeat (`IntervalsT`) block with repeat = N ≥ 1, the
expansion is the strictly alternating list starting with a work step
(work, recovery, work, ..., work); it has exactly N Active steps and
N − 1 Rest steps, every step is `Timed` with the work steps lasting
`OnDuration` and the recovery steps `OffDuration`, and the final step is
work step N (no trailing recovery step). -/
theorem intervals_expansion (c : zwoToFitConverter) (sport : String)
    (N : ℕ) (onD offD : ℤ) (onP offP : ℚ) (hN : 1 ≤ N) :
    intervalsLoop c sport (N : ℤ) onD offD onP offP =
      (List.range (2 * N - 1)).map
        (fun j => if j % 2 = 0 then intervalWorkStep c sport (j / 2) onD onP
                  else intervalRecoveryStep c sport (j / 2) offD offP) ∧
    (intervalsLoop c sport (N : ℤ) onD offD onP offP).countP
        (fun s => decide (s.intensity = Intensity.ACTIVE)) = N ∧
    (intervalsLoop c sport (N : ℤ) onD offD onP offP).countP
        (fun s => decide (s.intensity = Intensity.REST)) = N - 1 ∧
    (∀ s ∈ intervalsLoop c sport (N : ℤ) onD offD onP offP,
      s.duration_type = WorkoutStepDuration.TIME ∧
      (s.intensity = Intensity.ACTIVE → s.duration_value = onD * 1000) ∧
      (s.intensity = Intensity.REST → s.duration_value = offD * 1000)) ∧
    (intervalsLoop c sport (N : ℤ) onD offD onP offP).getLast? =
      some (intervalWorkStep c sport (N - 1) onD onP) := by
  have halt := intervalsLoop_alternating c sport onD offD onP offP N hN
  have hclosed := intervalsLoop_closed c sport onD offD onP offP N hN
  refine ⟨halt, ?_, ?_, ?_, ?_⟩
  · rw [halt, List.countP_map]
    have hc : ∀ j ∈ List.range (2 * N - 1),
        (((fun s => decide (s.intensity = Intensity.ACTIVE)) ∘
          (fun j => if j % 2 = 0 then intervalWorkStep c sport (j / 2) onD onP
                    else intervalRecoveryStep c sport (j / 2) offD offP)) j
          = true ↔ (fun j => decide (j % 2 = 0)) j = true) := by
      intro j _
      by_cases hj : j % 2 = 0 <;>
        simp [hj, intervalWorkStep_intensity, intervalRecoveryStep_intensity]
    rw [List.countP_congr hc, countP_even_range]
    omega
  · rw [halt, List.countP_map]
    have hc : ∀ j ∈ List.range (2 * N - 1),
        (((fun s => decide (s.intensity = Intensity.REST)) ∘
          (fun j => if j % 2 = 0 then intervalWorkStep c sport (j / 2) onD onP
                    else intervalRecoveryStep c sport (j / 2) offD offP)) j
          = true ↔ (fun j => decide (j % 2 = 1)) j = true) := by
      intro j _
      by_cases hj : j % 2 = 0
      · simp [hj, intervalWorkStep_intensity, intervalRecoveryStep_intensity]
      · simp [hj, intervalWorkStep_intensity, intervalRecoveryStep_intensity]
        omega
    rw [List.countP_congr hc, countP_odd_range]
    omega
  · intro s hs
    rw [hclosed, List.mem_append] at hs
    rcases hs with hs | hs
    · rw [List.mem_flatMap] at hs
      obtain ⟨i, _, hmem⟩ := hs
      simp only [List.mem_cons, List.not_mem_nil, or_false] at hmem
      rcases hmem with rfl | rfl
      · refine ⟨intervalWorkStep_duration_type c sport i onD onP,
          fun _ => intervalWorkStep_duration_value c sport i onD onP,
          fun hr => ?_⟩
        rw [intervalWorkStep_intensity] at hr
        exact absurd hr (by decide)
      · refine ⟨intervalRecoveryStep_duration_type c sport i offD offP,
          fun ha => ?_,
          fun _ => intervalRecoveryStep_duration_value c sport i offD offP⟩
        rw [intervalRecoveryStep_intensity] at ha
        exact absurd ha (by decide)
    · rw [List.mem_singleton] at hs
      subst hs
      refine ⟨intervalWorkStep_duration_type c sport (N - 1) onD onP,
        fun _ => intervalWorkStep_duration_value c sport (N - 1) onD onP,
        fun hr => ?_⟩
      rw [intervalWorkStep_intensity] at hr
      exact absurd hr (by decide)
  · rw [hclosed]
    simp [List.getLast?_append]

/-- Witness for C1: repeat = 3 with the `main()` cycling configuration. -/
theorem intervals_expansion_witness :
    1 ≤ 3 ∧
    (intervalsLoop cfgPowerAbs "bike" ((3 : ℕ) : ℤ) 300 120 (85/100) (65/100) =
      (List.range (2 * 3 - 1)).map
        (fun j => if j % 2 = 0 then
            intervalWorkStep cfgPowerAbs "bike" (j / 2) 300 (85/100)
          else intervalRecoveryStep cfgPowerAbs "bike" (j / 2) 120 (65/100)) ∧
    (intervalsLoop cfgPowerAbs "bike" ((3 : ℕ) : ℤ) 300 120 (85/100)
        (65/100)).countP
        (fun s => decide (s.intensity = Intensity.ACTIVE)) = 3 ∧
    (intervalsLoop cfgPowerAbs "bike" ((3 : ℕ) : ℤ) 300 120 (85/100)
        (65/100)).countP
        (fun s => decide (s.intensity = Intensity.REST)) = 3 - 1 ∧
    (∀ s ∈ intervalsLoop cfgPowerAbs "bike" ((3 : ℕ) : ℤ) 300 120 (85/100)
        (65/100),
      s.duration_type = WorkoutStepDuration.TIME ∧
      (s.intensity = Intensity.ACTIVE → s.duration_value = 300 * 1000) ∧
      (s.intensity = Intensity.REST → s.duration_value = 120 * 1000)) ∧
    (intervalsLoop cfgPowerAbs "bike" ((3 : ℕ) : ℤ) 300 120 (85/100)
        (65/100)).getLast? =
      some (intervalWorkStep cfgPowerAbs "bike" (3 - 1) 300 (85/100))) :=
  ⟨by decide,
   intervals_expansion cfgPowerAbs "bike" 3 300 120 (85/100) (65/100)
     (by decide)⟩

/-! ### C3: power buffer computation -/

/-- C3: `_apply_power_buffer_watts` computes
`target = fraction × referencePower`, `low = target × (1 − buffer)`,
`high = target × (1 + buffer)`, each rounded to the nearest integer watt;
the two bounds bracket the unbuffered target symmetrically within
rounding, and (for a nonnegative target and buffer) the rounded
unbuffered target lies between them. -/
theorem apply_power_buffer_spec (c : zwoToFitConverter) (fraction : ℚ) :
    _apply_power_buffer_watts c fraction =
      (pyRound (fraction * c.ftp_watts * (1 - c.power_buffer_percent)),
       pyRound (fraction * c.ftp_watts * (1 + c.power_buffer_percent))) ∧
    |(((_apply_power_buffer_watts c fraction).2 : ℚ) -
        fraction * c.ftp_watts) -
      (fraction * c.ftp_watts -
        ((_apply_power_buffer_watts c fraction).1 : ℚ))| ≤ 1 ∧
    (0 ≤ fraction → 0 ≤ c.ftp_watts → 0 ≤ c.power_buffer_percent →
      (_apply_power_buffer_watts c fraction).1 ≤
          pyRound (fraction * c.ftp_watts) ∧
        pyRound (fraction * c.ftp_watts) ≤
          (_apply_power_buffer_watts c fraction).2) := by
  refine ⟨rfl, ?_, ?_⟩
  · have h1 := pyRound_dist (fraction * c.ftp_watts *
      (1 - c.power_buffer_percent))
    have h2 := pyRound_dist (fraction * c.ftp_watts *
      (1 + c.power_buffer_percent))
    rw [abs_le] at h1 h2 ⊢
    unfold _apply_power_buffer_watts
    dsimp only
    constructor <;> nlinarith [h1.1, h1.2, h2.1, h2.2]
  · intro hf hftp hb
    have ht : 0 ≤ fraction * c.ftp_watts := mul_nonneg hf hftp
    have htb : 0 ≤ fraction * c.ftp_watts * c.power_buffer_percent :=
      mul_nonneg ht hb
    constructor
    · exact pyRound_mono (by nlinarith)
    · exact pyRound_mono (by nlinarith)

/-- Witness for C3: fraction 0.75 at FTP 240 with 5 % buffer
(the spec's steady-state scenario: 180 W target, 171/189 W bounds). -/
theorem apply_power_buffer_spec_witness :
    _apply_power_buffer_watts cfgPowerAbs (3/4) =
      (pyRound ((3/4) * cfgPowerAbs.ftp_watts *
        (1 - cfgPowerAbs.power_buffer_percent)),
       pyRound ((3/4) * cfgPowerAbs.ftp_watts *
        (1 + cfgPowerAbs.power_buffer_percent))) ∧
    (0 ≤ (3/4 : ℚ) ∧ 0 ≤ cfgPowerAbs.ftp_watts ∧
      0 ≤ cfgPowerAbs.power_buffer_percent) ∧
    _apply_power_buffer_watts cfgPowerAbs (3/4) = (171, 189) := by
  refine ⟨(apply_power_buffer_spec cfgPowerAbs (3/4)).1,
    ⟨by norm_num, by norm_num [cfgPowerAbs, zwoToFitConverter.init],
     by norm_num [cfgPowerAbs, zwoToFitConverter.init]⟩, ?_⟩
  rw [(apply_power_buffer_spec cfgPowerAbs (3/4)).1]
  norm_num [cfgPowerAbs, zwoToFitConverter.init, pyRound, Int.floor_eq_iff]

/-! ### C4: FIT power encoding -/

/-- C4: `_convert_power_for_fit` adds the fixed offset 1000 under
absolute-power encoding, and emits
`round((watts / referencePower) × 100 × 10)` under threshold-relative
(FTP-percentage) encoding. -/
theorem convert_power_encoding (c : zwoToFitConverter) (watts : ℤ) :
    (c.use_absolute_power = true →
      _convert_power_for_fit c watts = watts + 1000) ∧
    (c.use_absolute_power = false →
      _convert_power_for_fit c watts =
        pyRound ((watts : ℚ) / c.ftp_watts * 100 * 10)) := by
  constructor <;> intro h <;> simp [_convert_power_for_fit, h]

/-- Witness for C4: both encodings at concrete watt values. -/
theorem convert_power_encoding_witness :
    (cfgPowerAbs.use_absolute_power = true ∧
      _convert_power_for_fit cfgPowerAbs 204 = 204 + 1000) ∧
    (cfgPct.use_absolute_power = false ∧
      _convert_power_for_fit cfgPct 204 =
        pyRound ((204 : ℚ) / cfgPct.ftp_watts * 100 * 10)) :=
  ⟨⟨rfl, (convert_power_encoding cfgPowerAbs 204).1 rfl⟩,
   ⟨rfl, (convert_power_encoding cfgPct 204).2 rfl⟩⟩

/-! ### C5: threshold-banded heart-rate zones -/

/-- C5: `_power_to_heart_rate_zone` maps a fraction to zone 1 when it is
at most 0.55, zone 2 when at most 0.70, zone 3 when at most 0.85, zone 4
when at most 0.95, zone 5 otherwise, and the result is always one of
zones 1..5. -/
theorem power_to_hr_zone_bands (c : zwoToFitConverter) (fraction : ℚ) :
    (fraction ≤ 55/100 → _power_to_heart_rate_zone c fraction = 1) ∧
    (¬fraction ≤ 55/100 → fraction ≤ 70/100 →
      _power_to_heart_rate_zone c fraction = 2) ∧
    (¬fraction ≤ 70/100 → fraction ≤ 85/100 →
      _power_to_heart_rate_zone c fraction = 3) ∧
    (¬fraction ≤ 85/100 → fraction ≤ 95/100 →
      _power_to_heart_rate_zone c fraction = 4) ∧
    (¬fraction ≤ 95/100 → _power_to_heart_rate_zone c fraction = 5) ∧
    1 ≤ _power_to_heart_rate_zone c fraction ∧
    _power_to_heart_rate_zone c fraction ≤ 5 := by
  unfold _power_to_heart_rate_zone
  dsimp only
  refine ⟨?_, ?_, ?_, ?_, ?_, ?_, ?_⟩ <;>
    first
      | (split_ifs <;> omega)
      | (intro h1
         split_ifs <;> first | rfl | linarith)
      | (intro h1 h2
         split_ifs <;> first | rfl | linarith)

/-- Witness for C5: fraction 0.65 lands in zone 2. -/
theorem power_to_hr_zone_bands_witness :
    ¬(65/100 : ℚ) ≤ 55/100 ∧ (65/100 : ℚ) ≤ 70/100 ∧
    _power_to_heart_rate_zone cfgHr (65/100) = 2 :=
  ⟨by norm_num, by norm_num,
   (power_to_hr_zone_bands cfgHr (65/100)).2.1 (by norm_num) (by norm_num)⟩

/-! ### C2: target-mode selection -/

/-- C2: every produced step carries a power target exactly when
`use_power_for_cycling` is set and the sport is bike/cycling; otherwise it
carries a heart-rate-zone target, computed from the average of the
(effective) PowerLow/PowerHigh for Warmup and Cooldown and from the
single fraction for SteadyState and for interval work/recovery legs. -/
theorem target_mode_selection (c : zwoToFitConverter) (e : Element)
    (sport : String) :
    ((_parse_warmup c e sport).target_type = WorkoutStepTarget.POWER ↔
      _should_use_power c sport = true) ∧
    (_should_use_power c sport = false →
      (_parse_warmup c e sport).target_type = WorkoutStepTarget.HEART_RATE ∧
      (_parse_warmup c e sport).target_value =
        _power_to_heart_rate_zone c
          ((warmupEffPowerLow c e + warmupEffPowerHigh c e) / 2)) ∧
    ((_parse_cooldown c e sport).target_type = WorkoutStepTarget.POWER ↔
      _should_use_power c sport = true) ∧
    (_should_use_power c sport = false →
      (_parse_cooldown c e sport).target_type = WorkoutStepTarget.HEART_RATE ∧
      (_parse_cooldown c e sport).target_value =
        _power_to_heart_rate_zone c
          ((e.get "PowerLow" (6/10) + e.get "PowerHigh" (65/100)) / 2)) ∧
    ((_parse_steady_state c e sport).target_type = WorkoutStepTarget.POWER ↔
      _should_use_power c sport = true) ∧
    (_should_use_power c sport = false →
      (_parse_steady_state c e sport).target_type =
        WorkoutStepTarget.HEART_RATE ∧
      (_parse_steady_state c e sport).target_value =
        _power_to_heart_rate_zone c (e.get "Power" (3/4))) ∧
    (∀ (i : ℕ) (onD : ℤ) (onP : ℚ),
      ((intervalWorkStep c sport i onD onP).target_type =
        WorkoutStepTarget.POWER ↔ _should_use_power c sport = true) ∧
      (_should_use_power c sport = false →
        (intervalWorkStep c sport i onD onP).target_value =
          _power_to_heart_rate_zone c onP)) ∧
    (∀ (i : ℕ) (offD : ℤ) (offP : ℚ),
      ((intervalRecoveryStep c sport i offD offP).target_type =
        WorkoutStepTarget.POWER ↔ _should_use_power c sport = true) ∧
      (_should_use_power c sport = false →
        (intervalRecoveryStep c sport i offD offP).target_value =
          _power_to_heart_rate_zone c offP)) := by
  cases h : _should_use_power c sport with
  | true =>
    refine ⟨by simp [_parse_warmup, h], by simp [h],
      by simp [_parse_cooldown, h], by simp [h],
      by simp [_parse_steady_state, h], by simp [h],
      fun i onD onP => ⟨by simp [intervalWorkStep, h], by simp [h]⟩,
      fun i offD offP => ⟨by simp [intervalRecoveryStep, h], by simp [h]⟩⟩
  | false =>
    refine ⟨by simp [_parse_warmup, h], ?_,
      by simp [_parse_cooldown, h],
      fun _ => ⟨by simp [_parse_cooldown, h], by simp [_parse_cooldown, h]⟩,
      by simp [_parse_steady_state, h],
      fun _ => ⟨by simp [_parse_steady_state, h],
        by simp [_parse_steady_state, h]⟩,
      fun i onD onP => ⟨by simp [intervalWorkStep, h],
        fun _ => by simp [intervalWorkStep, h]⟩,
      fun i offD offP => ⟨by simp [intervalRecoveryStep, h],
        fun _ => by simp [intervalRecoveryStep, h]⟩⟩
    intro _
    refine ⟨by simp [_parse_warmup, h], ?_⟩
    rcases hf : c.force_warmup_power with _ | f
    · simp [_parse_warmup, h, hf, warmupEffPowerLow, warmupEffPowerHigh]
    · simp only [_parse_warmup, h, hf, warmupEffPowerLow, warmupEffPowerHigh,
        Bool.false_eq_true, if_false]
      congr 1
      ring

/-- Witness for C2: heart-rate mode for a run warmup with default
attributes. -/
theorem target_mode_selection_witness :
    (_parse_warmup cfgHr { tag := "Warmup", attrs := [] } "run").target_type =
        WorkoutStepTarget.HEART_RATE ∧
      (_parse_warmup cfgHr { tag := "Warmup", attrs := [] } "run").target_value =
        _power_to_heart_rate_zone cfgHr
          ((warmupEffPowerLow cfgHr { tag := "Warmup", attrs := [] } +
            warmupEffPowerHigh cfgHr { tag := "Warmup", attrs := [] }) / 2) :=
  (target_mode_selection cfgHr { tag := "Warmup", attrs := [] } "run").2.1 rfl

/-! ### C9: cooldown vs warmup attribute defaults -/

/-- C9: a Cooldown block with no attributes is parsed exactly as one with
Duration 600, PowerLow 0.60, PowerHigh 0.65; a Warmup block with no
attributes exactly as one with Duration 600, PowerLow 0.60,
PowerHigh 0.70 — and the two PowerHigh defaults differ. -/
theorem cooldown_warmup_defaults (c : zwoToFitConverter) (sport : String) :
    _parse_cooldown c { tag := "Cooldown", attrs := [] } sport =
      _parse_cooldown c
        { tag := "Cooldown",
          attrs := [("Duration", 600), ("PowerLow", 6/10),
                    ("PowerHigh", 65/100)] } sport ∧
    _parse_warmup c { tag := "Warmup", attrs := [] } sport =
      _parse_warmup c
        { tag := "Warmup",
          attrs := [("Duration", 600), ("PowerLow", 6/10),
                    ("PowerHigh", 7/10)] } sport ∧
    (65/100 : ℚ) ≠ 7/10 :=
  ⟨rfl, rfl, by norm_num⟩

/-! ### C10: ranged blocks buffer each bound outward -/

lemma parse_warmup_ranged_fields (c : zwoToFitConverter) (e : Element)
    (sport : String) (hforce : c.force_warmup_power = none)
    (hne : e.get "PowerLow" (6/10) ≠ e.get "PowerHigh" (7/10))
    (hpow : _should_use_power c sport = true) :
    (_parse_warmup c e sport).custom_target_value_low =
      some (_convert_power_for_fit c
        (pyRound (e.get "PowerLow" (6/10) * c.ftp_watts *
          (1 - c.power_buffer_percent)))) ∧
    (_parse_warmup c e sport).custom_target_value_high =
      some (_convert_power_for_fit c
        (pyRound (e.get "PowerHigh" (7/10) * c.ftp_watts *
          (1 + c.power_buffer_percent)))) := by
  simp only [_parse_warmup, warmupEffPowerLow, warmupEffPowerHigh, hforce,
    hpow, if_true, if_neg hne, _apply_power_buffer_watts]
  exact ⟨by trivial, by trivial⟩

lemma parse_cooldown_ranged_fields (c : zwoToFitConverter) (e : Element)
    (sport : String)
    (hne : e.get "PowerLow" (6/10) ≠ e.get "PowerHigh" (65/100))
    (hpow : _should_use_power c sport = true) :
    (_parse_cooldown c e sport).custom_target_value_low =
      some (_convert_power_for_fit c
        (pyRound (e.get "PowerLow" (6/10) * c.ftp_watts *
          (1 - c.power_buffer_percent)))) ∧
    (_parse_cooldown c e sport).custom_target_value_high =
      some (_convert_power_for_fit c
        (pyRound (e.get "PowerHigh" (65/100) * c.ftp_watts *
          (1 + c.power_buffer_percent)))) := by
  simp only [_parse_cooldown, hpow, if_true, if_neg hne,
    _apply_power_buffer_watts]
  exact ⟨by trivial, by trivial⟩

/-- C10: for a Warmup or Cooldown block in power mode whose PowerLow and
PowerHigh differ, the emitted low bound is
`round(PowerLow × FTP × (1 − buffer))` and the emitted high bound is
`round(PowerHigh × FTP × (1 + buffer))` (then FIT-encoded); with a
nonnegative buffer and FTP each bound moves outward only, so the rounded
unbuffered bounds lie inside the emitted range. -/
theorem ranged_buffer_outward (c : zwoToFitConverter) (sport : String)
    (d pl ph : ℚ) (hforce : c.force_warmup_power = none) (hne : pl ≠ ph)
    (hpow : _should_use_power c sport = true) :
    ((_parse_warmup c (Element.mk "Warmup"
        [("Duration", d), ("PowerLow", pl), ("PowerHigh", ph)])
        sport).custom_target_value_low =
      some (_convert_power_for_fit c
        (pyRound (pl * c.ftp_watts * (1 - c.power_buffer_percent)))) ∧
     (_parse_warmup c (Element.mk "Warmup"
        [("Duration", d), ("PowerLow", pl), ("PowerHigh", ph)])
        sport).custom_target_value_high =
      some (_convert_power_for_fit c
        (pyRound (ph * c.ftp_watts * (1 + c.power_buffer_percent))))) ∧
    ((_parse_cooldown c (Element.mk "Cooldown"
        [("Duration", d), ("PowerLow", pl), ("PowerHigh", ph)])
        sport).custom_target_value_low =
      some (_convert_power_for_fit c
        (pyRound (pl * c.ftp_watts * (1 - c.power_buffer_percent)))) ∧
     (_parse_cooldown c (Element.mk "Cooldown"
        [("Duration", d), ("PowerLow", pl), ("PowerHigh", ph)])
        sport).custom_target_value_high =
      some (_convert_power_for_fit c
        (pyRound (ph * c.ftp_watts * (1 + c.power_buffer_percent))))) ∧
    (0 ≤ pl → 0 ≤ ph → 0 ≤ c.ftp_watts → 0 ≤ c.power_buffer_percent →
      pyRound (pl * c.ftp_watts * (1 - c.power_buffer_percent)) ≤
          pyRound (pl * c.ftp_watts) ∧
        pyRound (ph * c.ftp_watts) ≤
          pyRound (ph * c.ftp_watts * (1 + c.power_buffer_percent))) := by
  obtain ⟨hW1, hW2⟩ := parse_warmup_ranged_fields c
    (Element.mk "Warmup" [("Duration", d), ("PowerLow", pl), ("PowerHigh", ph)])
    sport hforce (by simpa [Element.get, lookupAttr] using hne) hpow
  obtain ⟨hC1, hC2⟩ := parse_cooldown_ranged_fields c
    (Element.mk "Cooldown"
      [("Duration", d), ("PowerLow", pl), ("PowerHigh", ph)])
    sport (by simpa [Element.get, lookupAttr] using hne) hpow
  refine ⟨⟨?_, ?_⟩, ⟨?_, ?_⟩, ?_⟩
  · rw [hW1]
    rfl
  · rw [hW2]
    rfl
  · rw [hC1]
    rfl
  · rw [hC2]
    rfl
  · intro hpl hph hftp hb
    have h1 : 0 ≤ pl * c.ftp_watts * c.power_buffer_percent :=
      mul_nonneg (mul_nonneg hpl hftp) hb
    have h2 : 0 ≤ ph * c.ftp_watts * c.power_buffer_percent :=
      mul_nonneg (mul_nonneg hph hftp) hb
    exact ⟨pyRound_mono (by nlinarith), pyRound_mono (by nlinarith)⟩

/-- Witness for C10: warmup/cooldown with PowerLow 0.60, PowerHigh 0.70
on a bike under the `main()` power configuration. -/
theorem ranged_buffer_outward_witness :
    (cfgPowerAbs.force_warmup_power = none ∧ (6/10 : ℚ) ≠ 7/10 ∧
      _should_use_power cfgPowerAbs "bike" = true) ∧
    ((_parse_warmup cfgPowerAbs (Element.mk "Warmup"
        [("Duration", 600), ("PowerLow", 6/10), ("PowerHigh", 7/10)])
        "bike").custom_target_value_low =
      some (_convert_power_for_fit cfgPowerAbs
        (pyRound ((6/10) * cfgPowerAbs.ftp_watts *
          (1 - cfgPowerAbs.power_buffer_percent)))) ∧
     (_parse_warmup cfgPowerAbs (Element.mk "Warmup"
        [("Duration", 600), ("PowerLow", 6/10), ("PowerHigh", 7/10)])
        "bike").custom_target_value_high =
      some (_convert_power_for_fit cfgPowerAbs
        (pyRound ((7/10) * cfgPowerAbs.ftp_watts *
          (1 + cfgPowerAbs.power_buffer_percent))))) :=
  ⟨⟨rfl, by norm_num, rfl⟩,
   (ranged_buffer_outward cfgPowerAbs "bike" 600 (6/10) (7/10) rfl
     (by norm_num) rfl).1⟩

/-! ### C8: empty workout and unrecognized tags -/

/-- A well-formed document whose `workout` element has no children. -/
def rootEmptyWorkout : ZwoRoot :=
  { name := none, description := none, sportType := none,
    workout := some [] }

/-- C8: a well-formed document whose workout element is empty parses to
zero steps, and an unrecognized block tag contributes no steps
(the remaining children parse exactly as if it were absent). -/
theorem empty_workout_and_unknown_tags (c : zwoToFitConverter)
    (root : ZwoRoot) (sport tag : String) (attrs : List (String × ℚ))
    (els : List Element) :
    (root.workout = some [] → (parse_zwo_file c root).steps = []) ∧
    (tag ∉ (["Warmup", "Cooldown", "IntervalsT", "SteadyState"] :
        List String) →
      _parse_workout_steps c (Element.mk tag attrs :: els) sport =
        _parse_workout_steps c els sport) := by
  constructor
  · intro h
    simp [parse_zwo_file, h, _parse_workout_steps]
  · intro h
    simp only [List.mem_cons, List.not_mem_nil, or_false, not_or] at h
    obtain ⟨h1, h2, h3, h4⟩ := h
    simp [_parse_workout_steps, h1, h2, h3, h4]

/-- Witness for C8: an empty workout element and a `FreeRide` block. -/
theorem empty_workout_and_unknown_tags_witness :
    (rootEmptyWorkout.workout = some [] ∧
      (parse_zwo_file cfgPowerAbs rootEmptyWorkout).steps = []) ∧
    ("FreeRide" ∉ (["Warmup", "Cooldown", "IntervalsT", "SteadyState"] :
        List String) ∧
      _parse_workout_steps cfgPowerAbs [Element.mk "FreeRide" []] "bike" =
        _parse_workout_steps cfgPowerAbs [] "bike") :=
  ⟨⟨rfl,
    (empty_workout_and_unknown_tags cfgPowerAbs rootEmptyWorkout "bike"
      "FreeRide" [] []).1 rfl⟩,
   ⟨by decide,
    (empty_workout_and_unknown_tags cfgPowerAbs rootEmptyWorkout "bike"
      "FreeRide" [] []).2 (by decide)⟩⟩

/-! ### C6: configuration validation -/

/-- C6 counterexample: `referencePower = 0` is an invalid configuration
(`referencePower ≤ 0`), yet the converter raises nothing and happily
processes a document: a SteadyState block still yields a step.  There is
no ConfigError anywhere in the code. -/
theorem config_validation_counterexample :
    ¬(0 : ℚ) > 0 ∧
    (_parse_workout_steps (zwoToFitConverter.init 0 true 5 true true false
        none) [Element.mk "SteadyState" []] "bike").length = 1 :=
  ⟨by norm_num, rfl⟩

/-- C6 amended: the constructor performs no validation at all — it stores
the arguments unchanged (dividing the buffer percentage by 100) for every
input, valid or not, and document conversion proceeds under any
configuration, including `referencePower ≤ 0`. -/
theorem init_no_validation (ftp pbp : ℚ) (upc uap wma cma : Bool)
    (fwp : Option ℚ) :
    (zwoToFitConverter.init ftp upc pbp uap wma cma fwp).ftp_watts = ftp ∧
    (zwoToFitConverter.init ftp upc pbp uap wma cma fwp).power_buffer_percent
      = pbp / 100 ∧
    (_parse_workout_steps (zwoToFitConverter.init ftp upc pbp uap wma cma fwp)
      [Element.mk "SteadyState" []] "bike").length = 1 :=
  ⟨rfl, rfl, rfl⟩

/-! ### C7: heart-rate-zone strategy selection -/

/-- C7 counterexample: at the spec's own divergence fraction 0.72 the
zone mapper returns the threshold-banded zone 3 under *every*
configuration — the mapper ignores the converter state, so no
configuration value can select the nearest-table strategy. -/
theorem zone_strategy_counterexample :
    (fun c : zwoToFitConverter => _power_to_heart_rate_zone c (72/100)) =
      (fun _ : zwoToFitConverter => 3) := by
  funext c
  norm_num [_power_to_heart_rate_zone]

/-- C7 amended: only the threshold-banded strategy is implemented; the
zone mapper coincides with the banded formula for every configuration and
fraction, and offers no strategy switch. -/
theorem zone_mapper_threshold_banded (c : zwoToFitConverter) (fraction : ℚ) :
    _power_to_heart_rate_zone c fraction = thresholdBandedZone fraction := by
  unfold _power_to_heart_rate_zone thresholdBandedZone
  dsimp only
  split_ifs <;> first | rfl | linarith
